import Mathlib

/-!
# Verification of the Multi-Digest File Checksum Engine

Shallow embedding of `src/src-tauri/src/main.rs` from the
`checksum-check` repository: the `calculate_file_hash` function, the
`HashResult` record and the `calculate_checksum` Tauri command, together
with executable implementations of MD5, SHA-1, SHA-256 and SHA-512
(the digest computations the Rust code delegates to the `md5`, `sha1`
and `sha2` crates, embedded here from the published standards those
crates implement, RFC 1321 and FIPS 180-4).

Bytes are modelled as `Nat` values below 256, buffers as `List Nat`,
machine words as `Nat` reduced modulo `2^32` / `2^64`.
-/

set_option maxRecDepth 100000

/-! ## 32-bit and 64-bit word arithmetic -/

def MOD32 : Nat := 4294967296

def MOD64 : Nat := 18446744073709551616

def add32 (a b : Nat) : Nat := (a + b) % MOD32

def add64 (a b : Nat) : Nat := (a + b) % MOD64

def not32 (x : Nat) : Nat := (MOD32 - 1) ^^^ (x % MOD32)

def not64 (x : Nat) : Nat := (MOD64 - 1) ^^^ (x % MOD64)

def rotl32 (x n : Nat) : Nat :=
  (((x % MOD32) <<< n) ||| ((x % MOD32) >>> (32 - n))) % MOD32

def rotr32 (x n : Nat) : Nat :=
  (((x % MOD32) >>> n) ||| ((x % MOD32) <<< (32 - n))) % MOD32

def rotr64 (x n : Nat) : Nat :=
  (((x % MOD64) >>> n) ||| ((x % MOD64) <<< (64 - n))) % MOD64

def shr32 (x n : Nat) : Nat := (x % MOD32) >>> n

def shr64 (x n : Nat) : Nat := (x % MOD64) >>> n

/-! ## Byte serialization -/

/-- The `n` low bytes of `v`, least significant first. -/
def toLEBytes : Nat → Nat → List Nat
  | 0, _ => []
  | n + 1, v => (v % 256) :: toLEBytes n (v / 256)

/-- The `n` low bytes of `v`, most significant first. -/
def toBEBytes (n v : Nat) : List Nat := (toLEBytes n v).reverse

/-- Assemble consecutive groups of 4 bytes into little-endian 32-bit words. -/
def leWords32 : List Nat → List Nat
  | a :: b :: c :: d :: rest =>
      (a + 256 * b + 65536 * c + 16777216 * d) :: leWords32 rest
  | _ => []

/-- Assemble consecutive groups of 4 bytes into big-endian 32-bit words. -/
def beWords32 : List Nat → List Nat
  | a :: b :: c :: d :: rest =>
      (((a * 256 + b) * 256 + c) * 256 + d) :: beWords32 rest
  | _ => []

/-- Assemble consecutive groups of 8 bytes into big-endian 64-bit words. -/
def beWords64 : List Nat → List Nat
  | a :: b :: c :: d :: e :: f :: g :: h :: rest =>
      ((((((((a * 256 + b) * 256 + c) * 256 + d) * 256 + e) * 256 + f)
        * 256 + g) * 256 + h)) :: beWords64 rest
  | _ => []

/-- Split a list into consecutive chunks of `n` elements (fuel-driven; the
fuel is the list length, so every element is consumed when `0 < n`). -/
def chunkListGo (n : Nat) : Nat → List α → List (List α)
  | 0, _ => []
  | _, [] => []
  | fuel + 1, l => l.take n :: chunkListGo n fuel (l.drop n)

def chunkList (n : Nat) (l : List α) : List (List α) :=
  chunkListGo n l.length l

/-! ## Hex encoding (the Rust side's `format!("\x7b:x\x7d", digest)`:
two lowercase hex characters per byte, most significant nibble first) -/

def hexChar (n : Nat) : Char :=
  if n < 10 then Char.ofNat (48 + n) else Char.ofNat (87 + n)

def byteToHex (b : Nat) : List Char :=
  [hexChar (b / 16 % 16), hexChar (b % 16)]

def bytesToHex (bs : List Nat) : String :=
  ⟨bs.flatMap byteToHex⟩

/-! ## MD5 (RFC 1321) -/

def md5K : List Nat :=
  [3614090360, 3905402710, 606105819, 3250441966,
   4118548399, 1200080426, 2821735955, 4249261313,
   1770035416, 2336552879, 4294925233, 2304563134,
   1804603682, 4254626195, 2792965006, 1236535329,
   4129170786, 3225465664, 643717713, 3921069994,
   3593408605, 38016083, 3634488961, 3889429448,
   568446438, 3275163606, 4107603335, 1163531501,
   2850285829, 4243563512, 1735328473, 2368359562,
   4294588738, 2272392833, 1839030562, 4259657740,
   2763975236, 1272893353, 4139469664, 3200236656,
   681279174, 3936430074, 3572445317, 76029189,
   3654602809, 3873151461, 530742520, 3299628645,
   4096336452, 1126891415, 2878612391, 4237533241,
   1700485571, 2399980690, 4293915773, 2240044497,
   1873313359, 4264355552, 2734768916, 1309151649,
   4149444226, 3174756917, 718787259, 3951481745]

def md5S : List Nat :=
  [7, 12, 17, 22, 7, 12, 17, 22, 7, 12, 17, 22, 7, 12, 17, 22,
   5, 9, 14, 20, 5, 9, 14, 20, 5, 9, 14, 20, 5, 9, 14, 20,
   4, 11, 16, 23, 4, 11, 16, 23, 4, 11, 16, 23, 4, 11, 16, 23,
   6, 10, 15, 21, 6, 10, 15, 21, 6, 10, 15, 21, 6, 10, 15, 21]

/-- Message padding shared by MD5 and SHA-1/SHA-256: append `128`, zeros
to 56 mod 64 bytes, then the 8-byte bit length (little-endian for MD5). -/
def md5Pad (msg : List Nat) : List Nat :=
  let len := msg.length
  let zeros := (120 - (len + 1) % 64) % 64
  msg ++ [128] ++ List.replicate zeros 0 ++ toLEBytes 8 (len * 8)

def md5Round (m : List Nat) (st : Nat × Nat × Nat × Nat) (i : Nat) :
    Nat × Nat × Nat × Nat :=
  let (a, b, c, d) := st
  let f :=
    if i < 16 then (b &&& c) ||| (not32 b &&& d)
    else if i < 32 then (d &&& b) ||| (not32 d &&& c)
    else if i < 48 then b ^^^ c ^^^ d
    else c ^^^ (b ||| not32 d)
  let g :=
    if i < 16 then i
    else if i < 32 then (5 * i + 1) % 16
    else if i < 48 then (3 * i + 5) % 16
    else (7 * i) % 16
  let f := add32 (add32 (add32 f a) (md5K.getD i 0)) (m.getD g 0)
  (d, add32 b (rotl32 f (md5S.getD i 0)), b, c)

def md5Chunk (st : Nat × Nat × Nat × Nat) (chunk : List Nat) :
    Nat × Nat × Nat × Nat :=
  let m := leWords32 chunk
  let (a, b, c, d) := (List.range 64).foldl (md5Round m) st
  let (a0, b0, c0, d0) := st
  (add32 a0 a, add32 b0 b, add32 c0 c, add32 d0 d)

def md5Bytes (msg : List Nat) : List Nat :=
  let st := (chunkList 64 (md5Pad msg)).foldl md5Chunk
    (1732584193, 4023233417, 2562383102, 271733878)
  toLEBytes 4 st.1 ++ toLEBytes 4 st.2.1 ++ toLEBytes 4 st.2.2.1
    ++ toLEBytes 4 st.2.2.2

def md5Hex (msg : List Nat) : String := bytesToHex (md5Bytes msg)

/-! ## SHA-1 (FIPS 180-4) -/

/-- SHA-1 / SHA-256 padding: append `128`, zeros to 56 mod 64 bytes,
then the 8-byte big-endian bit length. -/
def shaPad (msg : List Nat) : List Nat :=
  let len := msg.length
  let zeros := (120 - (len + 1) % 64) % 64
  msg ++ [128] ++ List.replicate zeros 0 ++ toBEBytes 8 (len * 8)

/-- Extend 16 message words to 80 for SHA-1. -/
def sha1Extend (w16 : List Nat) : List Nat :=
  (List.range 64).foldl
    (fun w j =>
      w ++ [rotl32 (w.getD (j + 13) 0 ^^^ w.getD (j + 8) 0 ^^^
                    w.getD (j + 2) 0 ^^^ w.getD j 0) 1])
    w16

def sha1Round (w : List Nat) (st : Nat × Nat × Nat × Nat × Nat) (i : Nat) :
    Nat × Nat × Nat × Nat × Nat :=
  let (a, b, c, d, e) := st
  let f :=
    if i < 20 then (b &&& c) ||| (not32 b &&& d)
    else if i < 40 then b ^^^ c ^^^ d
    else if i < 60 then (b &&& c) ||| (b &&& d) ||| (c &&& d)
    else b ^^^ c ^^^ d
  let k :=
    if i < 20 then 1518500249
    else if i < 40 then 1859775393
    else if i < 60 then 2400959708
    else 3395469782
  let temp := add32 (add32 (add32 (add32 (rotl32 a 5) f) e) k) (w.getD i 0)
  (temp, a, rotl32 b 30, c, d)

def sha1Chunk (st : Nat × Nat × Nat × Nat × Nat) (chunk : List Nat) :
    Nat × Nat × Nat × Nat × Nat :=
  let w := sha1Extend (beWords32 chunk)
  let (a, b, c, d, e) := (List.range 80).foldl (sha1Round w) st
  let (h0, h1, h2, h3, h4) := st
  (add32 h0 a, add32 h1 b, add32 h2 c, add32 h3 d, add32 h4 e)

def sha1Bytes (msg : List Nat) : List Nat :=
  let st := (chunkList 64 (shaPad msg)).foldl sha1Chunk
    (1732584193, 4023233417, 2562383102, 271733878, 3285377520)
  toBEBytes 4 st.1 ++ toBEBytes 4 st.2.1 ++ toBEBytes 4 st.2.2.1
    ++ toBEBytes 4 st.2.2.2.1 ++ toBEBytes 4 st.2.2.2.2

def sha1Hex (msg : List Nat) : String := bytesToHex (sha1Bytes msg)

/-! ## SHA-256 (FIPS 180-4) -/

def sha256K : List Nat :=
  [1116352408, 1899447441, 3049323471, 3921009573,
   961987163, 1508970993, 2453635748, 2870763221,
   3624381080, 310598401, 607225278, 1426881987,
   1925078388, 2162078206, 2614888103, 3248222580,
   3835390401, 4022224774, 264347078, 604807628,
   770255983, 1249150122, 1555081692, 1996064986,
   2554220882, 2821834349, 2952996808, 3210313671,
   3336571891, 3584528711, 113926993, 338241895,
   666307205, 773529912, 1294757372, 1396182291,
   1695183700, 1986661051, 2177026350, 2456956037,
   2730485921, 2820302411, 3259730800, 3345764771,
   3516065817, 3600352804, 4094571909, 275423344,
   430227734, 506948616, 659060556, 883997877,
   958139571, 1322822218, 1537002063, 1747873779,
   1955562222, 2024104815, 2227730452, 2361852424,
   2428436474, 2756734187, 3204031479, 3329325298]

/-- Extend 16 message words to 64 for SHA-256. -/
def sha256Extend (w16 : List Nat) : List Nat :=
  (List.range 48).foldl
    (fun w j =>
      let w15 := w.getD (j + 1) 0
      let w2 := w.getD (j + 14) 0
      let s0 := rotr32 w15 7 ^^^ rotr32 w15 18 ^^^ shr32 w15 3
      let s1 := rotr32 w2 17 ^^^ rotr32 w2 19 ^^^ shr32 w2 10
      w ++ [add32 (add32 (add32 (w.getD j 0) s0) (w.getD (j + 9) 0)) s1])
    w16

def sha256Round (w : List Nat)
    (st : Nat × Nat × Nat × Nat × Nat × Nat × Nat × Nat) (i : Nat) :
    Nat × Nat × Nat × Nat × Nat × Nat × Nat × Nat :=
  let (a, b, c, d, e, f, g, h) := st
  let s1 := rotr32 e 6 ^^^ rotr32 e 11 ^^^ rotr32 e 25
  let ch := (e &&& f) ^^^ (not32 e &&& g)
  let temp1 := add32 (add32 (add32 (add32 h s1) ch) (sha256K.getD i 0))
    (w.getD i 0)
  let s0 := rotr32 a 2 ^^^ rotr32 a 13 ^^^ rotr32 a 22
  let maj := (a &&& b) ^^^ (a &&& c) ^^^ (b &&& c)
  let temp2 := add32 s0 maj
  (add32 temp1 temp2, a, b, c, add32 d temp1, e, f, g)

def sha256Chunk (st : Nat × Nat × Nat × Nat × Nat × Nat × Nat × Nat)
    (chunk : List Nat) : Nat × Nat × Nat × Nat × Nat × Nat × Nat × Nat :=
  let w := sha256Extend (beWords32 chunk)
  let (a, b, c, d, e, f, g, h) := (List.range 64).foldl (sha256Round w) st
  let (h0, h1, h2, h3, h4, h5, h6, h7) := st
  (add32 h0 a, add32 h1 b, add32 h2 c, add32 h3 d,
   add32 h4 e, add32 h5 f, add32 h6 g, add32 h7 h)

def sha256Bytes (msg : List Nat) : List Nat :=
  let st := (chunkList 64 (shaPad msg)).foldl sha256Chunk
    (1779033703, 3144134277, 1013904242, 2773480762,
     1359893119, 2600822924, 528734635, 1541459225)
  toBEBytes 4 st.1 ++ toBEBytes 4 st.2.1 ++ toBEBytes 4 st.2.2.1
    ++ toBEBytes 4 st.2.2.2.1 ++ toBEBytes 4 st.2.2.2.2.1
    ++ toBEBytes 4 st.2.2.2.2.2.1 ++ toBEBytes 4 st.2.2.2.2.2.2.1
    ++ toBEBytes 4 st.2.2.2.2.2.2.2

def sha256Hex (msg : List Nat) : String := bytesToHex (sha256Bytes msg)

/-! ## SHA-512 (FIPS 180-4) -/

def sha512K : List Nat :=
  [4794697086780616226, 8158064640168781261, 13096744586834688815, 16840607885511220156,
   4131703408338449720, 6480981068601479193, 10538285296894168987, 12329834152419229976,
   15566598209576043074, 1334009975649890238, 2608012711638119052, 6128411473006802146,
   8268148722764581231, 9286055187155687089, 11230858885718282805, 13951009754708518548,
   16472876342353939154, 17275323862435702243, 1135362057144423861, 2597628984639134821,
   3308224258029322869, 5365058923640841347, 6679025012923562964, 8573033837759648693,
   10970295158949994411, 12119686244451234320, 12683024718118986047, 13788192230050041572,
   14330467153632333762, 15395433587784984357, 489312712824947311, 1452737877330783856,
   2861767655752347644, 3322285676063803686, 5560940570517711597, 5996557281743188959,
   7280758554555802590, 8532644243296465576, 9350256976987008742, 10552545826968843579,
   11727347734174303076, 12113106623233404929, 14000437183269869457, 14369950271660146224,
   15101387698204529176, 15463397548674623760, 17586052441742319658, 1182934255886127544,
   1847814050463011016, 2177327727835720531, 2830643537854262169, 3796741975233480872,
   4115178125766777443, 5681478168544905931, 6601373596472566643, 7507060721942968483,
   8399075790359081724, 8693463985226723168, 9568029438360202098, 10144078919501101548,
   10430055236837252648, 11840083180663258601, 13761210420658862357, 14299343276471374635,
   14566680578165727644, 15097957966210449927, 16922976911328602910, 17689382322260857208,
   500013540394364858, 748580250866718886, 1242879168328830382, 1977374033974150939,
   2944078676154940804, 3659926193048069267, 4368137639120453308, 4836135668995329356,
   5532061633213252278, 6448918945643986474, 6902733635092675308, 7801388544844847127]

/-- SHA-512 padding: append `128`, zeros to 112 mod 128 bytes, then the
16-byte big-endian bit length. -/
def sha512Pad (msg : List Nat) : List Nat :=
  let len := msg.length
  let zeros := (240 - (len + 1) % 128) % 128
  msg ++ [128] ++ List.replicate zeros 0 ++ toBEBytes 16 (len * 8)

/-- Extend 16 message words to 80 for SHA-512. -/
def sha512Extend (w16 : List Nat) : List Nat :=
  (List.range 64).foldl
    (fun w j =>
      let w15 := w.getD (j + 1) 0
      let w2 := w.getD (j + 14) 0
      let s0 := rotr64 w15 1 ^^^ rotr64 w15 8 ^^^ shr64 w15 7
      let s1 := rotr64 w2 19 ^^^ rotr64 w2 61 ^^^ shr64 w2 6
      w ++ [add64 (add64 (add64 (w.getD j 0) s0) (w.getD (j + 9) 0)) s1])
    w16

def sha512Round (w : List Nat)
    (st : Nat × Nat × Nat × Nat × Nat × Nat × Nat × Nat) (i : Nat) :
    Nat × Nat × Nat × Nat × Nat × Nat × Nat × Nat :=
  let (a, b, c, d, e, f, g, h) := st
  let s1 := rotr64 e 14 ^^^ rotr64 e 18 ^^^ rotr64 e 41
  let ch := (e &&& f) ^^^ (not64 e &&& g)
  let temp1 := add64 (add64 (add64 (add64 h s1) ch) (sha512K.getD i 0))
    (w.getD i 0)
  let s0 := rotr64 a 28 ^^^ rotr64 a 34 ^^^ rotr64 a 39
  let maj := (a &&& b) ^^^ (a &&& c) ^^^ (b &&& c)
  let temp2 := add64 s0 maj
  (add64 temp1 temp2, a, b, c, add64 d temp1, e, f, g)

def sha512Chunk (st : Nat × Nat × Nat × Nat × Nat × Nat × Nat × Nat)
    (chunk : List Nat) : Nat × Nat × Nat × Nat × Nat × Nat × Nat × Nat :=
  let w := sha512Extend (beWords64 chunk)
  let (a, b, c, d, e, f, g, h) := (List.range 80).foldl (sha512Round w) st
  let (h0, h1, h2, h3, h4, h5, h6, h7) := st
  (add64 h0 a, add64 h1 b, add64 h2 c, add64 h3 d,
   add64 h4 e, add64 h5 f, add64 h6 g, add64 h7 h)

def sha512Bytes (msg : List Nat) : List Nat :=
  let st := (chunkList 128 (sha512Pad msg)).foldl sha512Chunk
    (7640891576956012808, 13503953896175478587, 4354685564936845355, 11912009170470909681,
     5840696475078001361, 11170449401992604703, 2270897969802886507, 6620516959819538809)
  toBEBytes 8 st.1 ++ toBEBytes 8 st.2.1 ++ toBEBytes 8 st.2.2.1
    ++ toBEBytes 8 st.2.2.2.1 ++ toBEBytes 8 st.2.2.2.2.1
    ++ toBEBytes 8 st.2.2.2.2.2.1 ++ toBEBytes 8 st.2.2.2.2.2.2.1
    ++ toBEBytes 8 st.2.2.2.2.2.2.2

def sha512Hex (msg : List Nat) : String := bytesToHex (sha512Bytes msg)

/-! ## The engine: `HashResult` and `calculate_file_hash`

The Rust function interacts with the OS through five fallible steps:
`File::open(path)?`, `file.metadata()?`, `file.read_to_end(&mut buffer)?`,
`metadata.modified()?` and `metadata.created()?`.  We model the OS's
responses explicitly: `FsFile` is what a successful open yields, carrying
the outcome of the subsequent metadata and read calls, and `Metadata`
carries the length reported by `metadata.len()` plus the outcomes of the
two timestamp calls.  A `SystemTime` is modelled as seconds relative to
the Unix epoch (an `Int`, negative for pre-epoch times);
`duration_since(UNIX_EPOCH)` fails exactly on negative values, and
`.map(|d| d.as_secs()).unwrap_or(0)` therefore clamps them to `0`. -/

instance {ε α : Type} [DecidableEq ε] [DecidableEq α] : DecidableEq (Except ε α)
  | .ok x, .ok y =>
    if h : x = y then .isTrue (by rw [h]) else .isFalse (by simp [h])
  | .ok _, .error _ => .isFalse (by simp)
  | .error _, .ok _ => .isFalse (by simp)
  | .error x, .error y =>
    if h : x = y then .isTrue (by rw [h]) else .isFalse (by simp [h])

/-- An `std::io::Error`; `message` is its `Display` rendering
(`e.to_string()`). -/
structure IOError where
  message : String
deriving DecidableEq, Repr

/-- The slice of `std::fs::Metadata` used by the engine. -/
structure Metadata where
  len : Nat
  modified : Except IOError Int
  created : Except IOError Int
deriving DecidableEq, Repr

/-- A successfully opened file: the outcomes of `file.metadata()` and
`file.read_to_end` (the buffer actually read). -/
structure FsFile where
  metaResult : Except IOError Metadata
  readResult : Except IOError (List Nat)
deriving DecidableEq, Repr

/-- Models `SystemTime::duration_since(UNIX_EPOCH).map(|d| d.as_secs()).unwrap_or(0)`. -/
def secsSinceEpoch (t : Int) : Nat :=
  if t < 0 then 0 else t.toNat

structure HashResult where
  md5 : String
  sha1 : String
  sha256 : String
  sha512 : String
  file_size : Nat
  modified : String
  created : String
deriving DecidableEq, Repr

/-- Embeds `calculate_file_hash` from `src/src-tauri/src/main.rs`, as a function
of the OS's response to `File::open(path)`.  Each `?` in the Rust source
is an early return of the error, rendered here as a `match`; the five
fallible steps occur in source order: open, `metadata()`, `read_to_end`,
`modified()`, `created()`. -/
def calculate_file_hash (openRes : Except IOError FsFile) :
    Except IOError HashResult :=
  match openRes with
  | .error e => .error e
  | .ok file =>
    match file.metaResult with
    | .error e => .error e
    | .ok metadata =>
      match file.readResult with
      | .error e => .error e
      | .ok buffer =>
        match metadata.modified with
        | .error e => .error e
        | .ok mtime =>
          match metadata.created with
          | .error e => .error e
          | .ok ctime =>
            .ok
              { md5 := md5Hex buffer
                sha1 := sha1Hex buffer
                sha256 := sha256Hex buffer
                sha512 := sha512Hex buffer
                file_size := metadata.len
                modified := Nat.repr (secsSinceEpoch mtime)
                created := Nat.repr (secsSinceEpoch ctime) }

/-- The `calculate_checksum` Tauri command:
`calculate_file_hash(&path).map_err(|e| e.to_string())`. -/
def calculate_checksum (openRes : Except IOError FsFile) :
    Except String HashResult :=
  match calculate_file_hash openRes with
  | .ok r => .ok r
  | .error e => .error e.message
/-- Byte content of an ASCII string literal. -/
def asciiBytes (s : String) : List Nat := s.toList.map Char.toNat

/-- Inversion principle for a successful run of the engine: success forces
every fallible step to have succeeded, and determines the result record. -/
theorem calculate_file_hash_ok_iff (f : FsFile) (r : HashResult) :
    calculate_file_hash (.ok f) = .ok r ↔
    ∃ meta buffer mt ct,
      f.metaResult = .ok meta ∧ f.readResult = .ok buffer ∧
      meta.modified = .ok mt ∧ meta.created = .ok ct ∧
      r = { md5 := md5Hex buffer, sha1 := sha1Hex buffer,
            sha256 := sha256Hex buffer, sha512 := sha512Hex buffer,
            file_size := meta.len,
            modified := Nat.repr (secsSinceEpoch mt),
            created := Nat.repr (secsSinceEpoch ct) } := by
  obtain ⟨mR, rR⟩ := f
  cases mR with
  | error e => simp [calculate_file_hash]
  | ok meta =>
    cases rR with
    | error e => simp [calculate_file_hash]
    | ok buffer =>
      obtain ⟨len, mod, cre⟩ := meta
      cases mod with
      | error e => simp [calculate_file_hash]
      | ok mt =>
        cases cre with
        | error e => simp [calculate_file_hash]
        | ok ct =>
          simp [calculate_file_hash, eq_comm]

/-- A concrete, fully successful zero-length file (for witnesses). -/
def emptyOpen : Except IOError FsFile :=
  .ok { metaResult := .ok { len := 0, modified := .ok 0, created := .ok 0 },
        readResult := .ok [] }

/-- C1: For a zero-length input file, `calculate_file_hash` succeeds and
the digest fields equal exactly the well-known empty-input digests for
MD5, SHA-1, SHA-256 and SHA-512. -/
theorem empty_file_digests (f : FsFile) (meta : Metadata) (mt ct : Int)
    (hmeta : f.metaResult = .ok meta) (hread : f.readResult = .ok [])
    (hmod : meta.modified = .ok mt) (hcre : meta.created = .ok ct) :
    ∃ r, calculate_file_hash (.ok f) = .ok r ∧
      r.md5 = "d41d8cd98f00b204e9800998ecf8427e" ∧
      r.sha1 = "da39a3ee5e6b4b0d3255bfef95601890afd80709" ∧
      r.sha256 = "e3b0c44298fc1c149afbf4c8996fb92427ae41e4649b934ca495991b7852b855" ∧
      r.sha512 = "cf83e1357eefb8bdf1542850d66d8007d620e4050b5715dc83f4a921d36ce9ce47d0d13c5d85f2b0ff8318d2877eec2f63b931bd47417a81a538327af927da3e" := by
  refine ⟨_, (calculate_file_hash_ok_iff f _).mpr
    ⟨meta, [], mt, ct, hmeta, hread, hmod, hcre, rfl⟩, ?_, ?_, ?_, ?_⟩
  · show md5Hex [] = "d41d8cd98f00b204e9800998ecf8427e"
    decide
  · show sha1Hex [] = "da39a3ee5e6b4b0d3255bfef95601890afd80709"
    decide
  · show sha256Hex [] = "e3b0c44298fc1c149afbf4c8996fb92427ae41e4649b934ca495991b7852b855"
    decide
  · show sha512Hex [] = "cf83e1357eefb8bdf1542850d66d8007d620e4050b5715dc83f4a921d36ce9ce47d0d13c5d85f2b0ff8318d2877eec2f63b931bd47417a81a538327af927da3e"
    decide

/-- Witness for C1: the theorem applied to a concrete zero-length file. -/
theorem empty_file_digests_witness :
    ∃ r, calculate_file_hash emptyOpen = .ok r ∧
      r.md5 = "d41d8cd98f00b204e9800998ecf8427e" ∧
      r.sha1 = "da39a3ee5e6b4b0d3255bfef95601890afd80709" ∧
      r.sha256 = "e3b0c44298fc1c149afbf4c8996fb92427ae41e4649b934ca495991b7852b855" ∧
      r.sha512 = "cf83e1357eefb8bdf1542850d66d8007d620e4050b5715dc83f4a921d36ce9ce47d0d13c5d85f2b0ff8318d2877eec2f63b931bd47417a81a538327af927da3e" :=
  empty_file_digests
    { metaResult := .ok { len := 0, modified := .ok 0, created := .ok 0 },
      readResult := .ok [] }
    { len := 0, modified := .ok 0, created := .ok 0 } 0 0 rfl rfl rfl rfl

/-- The byte content `b"The quick brown fox jumps over the lazy dog"`. -/
def foxBytes : List Nat :=
  asciiBytes "The quick brown fox jumps over the lazy dog"

/-- C2: For an input file whose byte content is
`"The quick brown fox jumps over the lazy dog"`, `calculate_file_hash`
returns the published MD5, SHA-1 and SHA-256 test vectors. -/
theorem fox_file_digests (f : FsFile) (meta : Metadata) (mt ct : Int)
    (hmeta : f.metaResult = .ok meta) (hread : f.readResult = .ok foxBytes)
    (hmod : meta.modified = .ok mt) (hcre : meta.created = .ok ct) :
    ∃ r, calculate_file_hash (.ok f) = .ok r ∧
      r.md5 = "9e107d9d372bb6826bd81d3542a419d6" ∧
      r.sha1 = "2fd4e1c67a2d28fced849ee1bb76e7391b93eb12" ∧
      r.sha256 = "d7a8fbb307d7809469ca9abcb0082e4f8d5651e46d3cdb762d02d0bf37c9e592" := by
  refine ⟨_, (calculate_file_hash_ok_iff f _).mpr
    ⟨meta, foxBytes, mt, ct, hmeta, hread, hmod, hcre, rfl⟩, ?_, ?_, ?_⟩
  · show md5Hex foxBytes = "9e107d9d372bb6826bd81d3542a419d6"
    decide
  · show sha1Hex foxBytes = "2fd4e1c67a2d28fced849ee1bb76e7391b93eb12"
    decide
  · show sha256Hex foxBytes = "d7a8fbb307d7809469ca9abcb0082e4f8d5651e46d3cdb762d02d0bf37c9e592"
    decide

/-- Witness for C2: the theorem applied to a concrete file holding the
fox sentence. -/
theorem fox_file_digests_witness :
    ∃ r, calculate_file_hash
        (.ok { metaResult := .ok { len := 43, modified := .ok 0, created := .ok 0 },
               readResult := .ok foxBytes }) = .ok r ∧
      r.md5 = "9e107d9d372bb6826bd81d3542a419d6" ∧
      r.sha1 = "2fd4e1c67a2d28fced849ee1bb76e7391b93eb12" ∧
      r.sha256 = "d7a8fbb307d7809469ca9abcb0082e4f8d5651e46d3cdb762d02d0bf37c9e592" :=
  fox_file_digests
    { metaResult := .ok { len := 43, modified := .ok 0, created := .ok 0 },
      readResult := .ok foxBytes }
    { len := 43, modified := .ok 0, created := .ok 0 } 0 0 rfl rfl rfl rfl

/-! ## Digest length and character-set lemmas -/

theorem toLEBytes_length (n : Nat) : ∀ v, (toLEBytes n v).length = n := by
  induction n with
  | zero => intro v; rfl
  | succ n ih => intro v; simp [toLEBytes, ih]

theorem toBEBytes_length (n v : Nat) : (toBEBytes n v).length = n := by
  simp [toBEBytes, toLEBytes_length]

theorem bytesToHex_length (bs : List Nat) :
    (bytesToHex bs).length = 2 * bs.length := by
  unfold bytesToHex
  show (bs.flatMap byteToHex).length = 2 * bs.length
  induction bs with
  | nil => rfl
  | cons b tl ih =>
    simp only [List.flatMap_cons, List.length_append, ih, List.length_cons,
      byteToHex, List.length_cons, List.length_nil]
    omega

theorem md5Bytes_length (msg : List Nat) : (md5Bytes msg).length = 16 := by
  unfold md5Bytes
  simp [toLEBytes_length]

theorem sha1Bytes_length (msg : List Nat) : (sha1Bytes msg).length = 20 := by
  unfold sha1Bytes
  simp [toBEBytes_length]

theorem sha256Bytes_length (msg : List Nat) : (sha256Bytes msg).length = 32 := by
  unfold sha256Bytes
  simp [toBEBytes_length]

theorem sha512Bytes_length (msg : List Nat) : (sha512Bytes msg).length = 64 := by
  unfold sha512Bytes
  simp [toBEBytes_length]

/-- The result record the engine produces for `emptyOpen` (used to
instantiate general theorems at a concrete input). -/
def emptyResult : HashResult :=
  { md5 := "d41d8cd98f00b204e9800998ecf8427e"
    sha1 := "da39a3ee5e6b4b0d3255bfef95601890afd80709"
    sha256 := "e3b0c44298fc1c149afbf4c8996fb92427ae41e4649b934ca495991b7852b855"
    sha512 := "cf83e1357eefb8bdf1542850d66d8007d620e4050b5715dc83f4a921d36ce9ce47d0d13c5d85f2b0ff8318d2877eec2f63b931bd47417a81a538327af927da3e"
    file_size := 0
    modified := "0"
    created := "0" }

/-- C3: Whenever `calculate_file_hash` succeeds, the digest strings have
exactly lengths 32, 40, 64 and 128, regardless of the input content. -/
theorem digest_lengths (openRes : Except IOError FsFile) (r : HashResult)
    (h : calculate_file_hash openRes = .ok r) :
    r.md5.length = 32 ∧ r.sha1.length = 40 ∧
    r.sha256.length = 64 ∧ r.sha512.length = 128 := by
  cases openRes with
  | error e => exact absurd h (by simp [calculate_file_hash])
  | ok f =>
    obtain ⟨meta, buffer, mt, ct, _, _, _, _, rfl⟩ :=
      (calculate_file_hash_ok_iff f r).mp h
    refine ⟨?_, ?_, ?_, ?_⟩ <;>
      simp [md5Hex, sha1Hex, sha256Hex, sha512Hex, bytesToHex_length,
        md5Bytes_length, sha1Bytes_length, sha256Bytes_length,
        sha512Bytes_length]

/-- Witness for C3 at a concrete zero-length file. -/
theorem digest_lengths_witness :
    emptyResult.md5.length = 32 ∧ emptyResult.sha1.length = 40 ∧
    emptyResult.sha256.length = 64 ∧ emptyResult.sha512.length = 128 :=
  digest_lengths emptyOpen emptyResult (by decide)

/-- A lowercase hexadecimal digit: one of `0`..`9` or `a`..`f`. -/
def isLowerHexDigit (c : Char) : Bool :=
  (48 ≤ c.toNat && c.toNat ≤ 57) || (97 ≤ c.toNat && c.toNat ≤ 102)

theorem hexChar_lower_hex : ∀ n, n < 16 → isLowerHexDigit (hexChar n) = true := by
  decide

theorem byteToHex_lower_hex (b : Nat) :
    ∀ c ∈ byteToHex b, isLowerHexDigit c = true := by
  intro c hc
  simp only [byteToHex, List.mem_cons, List.mem_singleton] at hc
  rcases hc with rfl | rfl | h
  · exact hexChar_lower_hex _ (Nat.mod_lt _ (by decide))
  · exact hexChar_lower_hex _ (Nat.mod_lt _ (by decide))
  · cases h

theorem bytesToHex_lower_hex (bs : List Nat) :
    (bytesToHex bs).data.all isLowerHexDigit = true := by
  rw [List.all_eq_true]
  intro c hc
  have hc' : c ∈ bs.flatMap byteToHex := hc
  rw [List.mem_flatMap] at hc'
  obtain ⟨b, _, hb⟩ := hc'
  exact byteToHex_lower_hex b c hb

/-- C5: Whenever `calculate_file_hash` succeeds, every character of each
of the four digest strings is a lowercase hexadecimal digit in `[0-9a-f]`
(hence no separators, prefixes or suffixes anywhere in the string). -/
theorem digest_charset (openRes : Except IOError FsFile) (r : HashResult)
    (h : calculate_file_hash openRes = .ok r) :
    r.md5.data.all isLowerHexDigit = true ∧
    r.sha1.data.all isLowerHexDigit = true ∧
    r.sha256.data.all isLowerHexDigit = true ∧
    r.sha512.data.all isLowerHexDigit = true := by
  cases openRes with
  | error e => exact absurd h (by simp [calculate_file_hash])
  | ok f =>
    obtain ⟨meta, buffer, mt, ct, _, _, _, _, rfl⟩ :=
      (calculate_file_hash_ok_iff f r).mp h
    exact ⟨bytesToHex_lower_hex _, bytesToHex_lower_hex _,
      bytesToHex_lower_hex _, bytesToHex_lower_hex _⟩

/-- Witness for C5 at a concrete zero-length file. -/
theorem digest_charset_witness :
    emptyResult.md5.data.all isLowerHexDigit = true ∧
    emptyResult.sha1.data.all isLowerHexDigit = true ∧
    emptyResult.sha256.data.all isLowerHexDigit = true ∧
    emptyResult.sha512.data.all isLowerHexDigit = true :=
  digest_charset emptyOpen emptyResult (by decide)

/-! ## Metadata, error propagation and refinement -/

/-- A file whose metadata-reported length disagrees with the bytes the
read actually returned (the file shrank between `metadata()` and
`read_to_end`, or the filesystem reports a nominal size, as `/proc`
files do). -/
def mismatchOpen : Except IOError FsFile :=
  .ok { metaResult := .ok { len := 1, modified := .ok 0, created := .ok 0 },
        readResult := .ok [] }

/-- Counterexample to C4 as stated: the engine copies `metadata.len()`
into `file_size` before reading, so when the metadata length and the
bytes actually read disagree, `file_size` is not the buffer length.
Here the buffer read is empty but metadata reported 1 byte. -/
theorem file_size_not_buffer_length :
    ∃ f r, mismatchOpen = .ok f ∧ f.readResult = .ok [] ∧
      calculate_file_hash mismatchOpen = .ok r ∧
      r.file_size ≠ ([] : List Nat).length := by
  refine ⟨{ metaResult := .ok { len := 1, modified := .ok 0, created := .ok 0 },
            readResult := .ok [] },
          { md5 := "d41d8cd98f00b204e9800998ecf8427e"
            sha1 := "da39a3ee5e6b4b0d3255bfef95601890afd80709"
            sha256 := "e3b0c44298fc1c149afbf4c8996fb92427ae41e4649b934ca495991b7852b855"
            sha512 := "cf83e1357eefb8bdf1542850d66d8007d620e4050b5715dc83f4a921d36ce9ce47d0d13c5d85f2b0ff8318d2877eec2f63b931bd47417a81a538327af927da3e"
            file_size := 1
            modified := "0"
            created := "0" },
          rfl, rfl, ?_, ?_⟩
  · decide
  · decide

/-- C4 (amended): whenever `calculate_file_hash` succeeds, `file_size`
equals the length reported by `metadata.len()`; it equals the number of
bytes actually read exactly when the two agree. -/
theorem file_size_eq_metadata_len (f : FsFile) (meta : Metadata)
    (r : HashResult) (hmeta : f.metaResult = .ok meta)
    (h : calculate_file_hash (.ok f) = .ok r) :
    r.file_size = meta.len ∧
    (∀ b, f.readResult = .ok b → meta.len = b.length →
      r.file_size = b.length) := by
  obtain ⟨m, b0, t, u, hm, _, _, _, rfl⟩ :=
    (calculate_file_hash_ok_iff f r).mp h
  rw [hmeta] at hm
  injection hm with hm
  subst hm
  exact ⟨rfl, fun b _ hlen => hlen⟩

/-- Witness for the amended C4 at a concrete input. -/
theorem file_size_eq_metadata_len_witness :
    emptyResult.file_size =
      (Metadata.mk 0 (.ok 0) (.ok 0)).len := by
  have h := file_size_eq_metadata_len
    { metaResult := .ok { len := 0, modified := .ok 0, created := .ok 0 },
      readResult := .ok [] }
    { len := 0, modified := .ok 0, created := .ok 0 }
    emptyResult rfl (by decide)
  exact h.1

/-- C6: every I/O failure (open, metadata retrieval, or read) makes the
engine return exactly that error, and the outcome is always either a
full result record or an error, never anything partial. -/
theorem io_failure_propagates (e : IOError) (f : FsFile) :
    calculate_file_hash (.error e) = .error e ∧
    (f.metaResult = .error e → calculate_file_hash (.ok f) = .error e) ∧
    (∀ meta, f.metaResult = .ok meta → f.readResult = .error e →
      calculate_file_hash (.ok f) = .error e) ∧
    (∀ openRes : Except IOError FsFile,
      (∃ r, calculate_file_hash openRes = .ok r) ∨
      (∃ e', calculate_file_hash openRes = .error e')) := by
  refine ⟨rfl, ?_, ?_, ?_⟩
  · intro h
    simp [calculate_file_hash, h]
  · intro meta h1 h2
    simp [calculate_file_hash, h1, h2]
  · intro openRes
    cases hres : calculate_file_hash openRes with
    | ok r => exact .inl ⟨r, rfl⟩
    | error e' => exact .inr ⟨e', rfl⟩

/-- Witness for C6: a nonexistent path (open fails), a metadata failure
and a read failure all surface as errors at concrete inputs. -/
theorem io_failure_propagates_witness :
    calculate_file_hash (.error ⟨"No such file or directory (os error 2)"⟩) =
      .error ⟨"No such file or directory (os error 2)"⟩ ∧
    calculate_file_hash
      (.ok { metaResult := .error ⟨"meta failed"⟩, readResult := .ok [] }) =
      .error ⟨"meta failed"⟩ ∧
    calculate_file_hash
      (.ok { metaResult := .ok { len := 0, modified := .ok 0, created := .ok 0 },
             readResult := .error ⟨"read failed"⟩ }) =
      .error ⟨"read failed"⟩ := by
  refine ⟨?_, ?_, ?_⟩
  · exact (io_failure_propagates ⟨"No such file or directory (os error 2)"⟩
      { metaResult := .ok { len := 0, modified := .ok 0, created := .ok 0 },
        readResult := .ok [] }).1
  · exact (io_failure_propagates ⟨"meta failed"⟩
      { metaResult := .error ⟨"meta failed"⟩, readResult := .ok [] }).2.1 rfl
  · exact (io_failure_propagates ⟨"read failed"⟩
      { metaResult := .ok { len := 0, modified := .ok 0, created := .ok 0 },
        readResult := .error ⟨"read failed"⟩ }).2.2.1
      { len := 0, modified := .ok 0, created := .ok 0 } rfl rfl

/-! ## Timestamp clamping and decimal rendering -/

theorem digitChar_isDigit : ∀ n, n < 10 → (Nat.digitChar n).isDigit = true := by
  decide

theorem toDigitsCore_all_digits (f : Nat) :
    ∀ (n : Nat) (acc : List Char), (∀ c ∈ acc, c.isDigit = true) →
      ∀ c ∈ Nat.toDigitsCore 10 f n acc, c.isDigit = true := by
  induction f with
  | zero =>
    intro n acc hacc c hc
    exact hacc c hc
  | succ f ih =>
    intro n acc hacc c hc
    rw [Nat.toDigitsCore] at hc
    by_cases h : n / 10 = 0
    · simp only [h, if_true] at hc
      rcases List.mem_cons.mp hc with rfl | hmem
      · exact digitChar_isDigit _ (Nat.mod_lt _ (by decide))
      · exact hacc c hmem
    · simp only [h, if_false] at hc
      refine ih (n / 10) (Nat.digitChar (n % 10) :: acc) ?_ c hc
      intro c' hc'
      rcases List.mem_cons.mp hc' with rfl | hmem
      · exact digitChar_isDigit _ (Nat.mod_lt _ (by decide))
      · exact hacc c' hmem

theorem repr_all_digits (n : Nat) :
    (Nat.repr n).data.all Char.isDigit = true := by
  rw [List.all_eq_true]
  intro c hc
  have hc' : c ∈ Nat.toDigitsCore 10 (n + 1) n [] := hc
  exact toDigitsCore_all_digits (n + 1) n [] (by intro c' hc'; cases hc') c hc'

/-- C7: when the metadata timestamps are retrievable, the engine never
fails on their account; a pre-epoch timestamp is clamped to `"0"`, and
the `modified` and `created` fields are always non-negative decimal
digit strings. -/
theorem pre_epoch_clamped (f : FsFile) (meta : Metadata)
    (buffer : List Nat) (mt ct : Int)
    (hmeta : f.metaResult = .ok meta) (hread : f.readResult = .ok buffer)
    (hmod : meta.modified = .ok mt) (hcre : meta.created = .ok ct) :
    ∃ r, calculate_file_hash (.ok f) = .ok r ∧
      (mt < 0 → r.modified = "0") ∧ (ct < 0 → r.created = "0") ∧
      r.modified.data.all Char.isDigit = true ∧
      r.created.data.all Char.isDigit = true := by
  refine ⟨_, (calculate_file_hash_ok_iff f _).mpr
    ⟨meta, buffer, mt, ct, hmeta, hread, hmod, hcre, rfl⟩, ?_, ?_, ?_, ?_⟩
  · intro hneg
    show Nat.repr (secsSinceEpoch mt) = "0"
    rw [secsSinceEpoch, if_pos hneg]
    rfl
  · intro hneg
    show Nat.repr (secsSinceEpoch ct) = "0"
    rw [secsSinceEpoch, if_pos hneg]
    rfl
  · exact repr_all_digits _
  · exact repr_all_digits _

/-- Witness for C7: a file whose timestamps are 100 seconds before the
epoch yields `"0"` in both fields. -/
theorem pre_epoch_clamped_witness :
    ∃ r, calculate_file_hash
        (.ok { metaResult := .ok { len := 0, modified := .ok (-100),
                                   created := .ok (-100) },
               readResult := .ok [] }) = .ok r ∧
      ((-100 : Int) < 0 → r.modified = "0") ∧
      ((-100 : Int) < 0 → r.created = "0") ∧
      r.modified.data.all Char.isDigit = true ∧
      r.created.data.all Char.isDigit = true :=
  pre_epoch_clamped
    { metaResult := .ok { len := 0, modified := .ok (-100),
                          created := .ok (-100) },
      readResult := .ok [] }
    { len := 0, modified := .ok (-100), created := .ok (-100) }
    [] (-100) (-100) rfl rfl rfl rfl

/-- C8: if the platform cannot supply a creation timestamp
(`metadata.created()` returns an error), the whole request fails with
that error; no value is fabricated for the `created` field. -/
theorem created_error_fails (f : FsFile) (meta : Metadata)
    (buffer : List Nat) (mt : Int) (e : IOError)
    (hmeta : f.metaResult = .ok meta) (hread : f.readResult = .ok buffer)
    (hmod : meta.modified = .ok mt) (hcre : meta.created = .error e) :
    calculate_file_hash (.ok f) = .error e := by
  simp [calculate_file_hash, hmeta, hread, hmod, hcre]

/-- Witness for C8 at a concrete input. -/
theorem created_error_fails_witness :
    calculate_file_hash
      (.ok { metaResult := .ok { len := 0, modified := .ok 0,
                                 created := .error ⟨"creation time is not available on this platform"⟩ },
             readResult := .ok [] }) =
      .error ⟨"creation time is not available on this platform"⟩ :=
  created_error_fails
    { metaResult := .ok { len := 0, modified := .ok 0,
                          created := .error ⟨"creation time is not available on this platform"⟩ },
      readResult := .ok [] }
    { len := 0, modified := .ok 0,
      created := .error ⟨"creation time is not available on this platform"⟩ }
    [] 0 ⟨"creation time is not available on this platform"⟩ rfl rfl rfl rfl

/-! ## Determinism and the public command -/

/-- C9: the digest fields are a deterministic function of the byte
content alone: two successful runs over files with identical content
produce identical digest strings for all four algorithms. -/
theorem digest_determinism (f1 f2 : FsFile) (b : List Nat)
    (r1 r2 : HashResult)
    (h1 : f1.readResult = .ok b) (h2 : f2.readResult = .ok b)
    (hc1 : calculate_file_hash (.ok f1) = .ok r1)
    (hc2 : calculate_file_hash (.ok f2) = .ok r2) :
    r1.md5 = r2.md5 ∧ r1.sha1 = r2.sha1 ∧
    r1.sha256 = r2.sha256 ∧ r1.sha512 = r2.sha512 := by
  obtain ⟨m1, b1, t1, u1, hm1, hr1, _, _, rfl⟩ :=
    (calculate_file_hash_ok_iff f1 r1).mp hc1
  obtain ⟨m2, b2, t2, u2, hm2, hr2, _, _, rfl⟩ :=
    (calculate_file_hash_ok_iff f2 r2).mp hc2
  rw [h1] at hr1
  injection hr1 with hb1
  rw [h2] at hr2
  injection hr2 with hb2
  subst hb1
  subst hb2
  exact ⟨rfl, rfl, rfl, rfl⟩

/-- Witness for C9: two files with the same (empty) content but
different metadata produce identical digests. -/
theorem digest_determinism_witness :
    emptyResult.md5 =
      (HashResult.mk "d41d8cd98f00b204e9800998ecf8427e"
        "da39a3ee5e6b4b0d3255bfef95601890afd80709"
        "e3b0c44298fc1c149afbf4c8996fb92427ae41e4649b934ca495991b7852b855"
        "cf83e1357eefb8bdf1542850d66d8007d620e4050b5715dc83f4a921d36ce9ce47d0d13c5d85f2b0ff8318d2877eec2f63b931bd47417a81a538327af927da3e"
        7 "12" "34").md5 := by
  have h := digest_determinism
    { metaResult := .ok { len := 0, modified := .ok 0, created := .ok 0 },
      readResult := .ok [] }
    { metaResult := .ok { len := 7, modified := .ok 12, created := .ok 34 },
      readResult := .ok [] }
    [] emptyResult
    (HashResult.mk "d41d8cd98f00b204e9800998ecf8427e"
      "da39a3ee5e6b4b0d3255bfef95601890afd80709"
      "e3b0c44298fc1c149afbf4c8996fb92427ae41e4649b934ca495991b7852b855"
      "cf83e1357eefb8bdf1542850d66d8007d620e4050b5715dc83f4a921d36ce9ce47d0d13c5d85f2b0ff8318d2877eec2f63b931bd47417a81a538327af927da3e"
      7 "12" "34")
    rfl rfl (by decide) (by decide)
  exact h.1

/-- C10: the public command `calculate_checksum` returns exactly the
result of `calculate_file_hash`: the identical record on success, and on
failure the error's human-readable display string. -/
theorem calculate_checksum_refines (openRes : Except IOError FsFile) :
    (∀ r, calculate_file_hash openRes = .ok r →
      calculate_checksum openRes = .ok r) ∧
    (∀ e, calculate_file_hash openRes = .error e →
      calculate_checksum openRes = .error e.message) := by
  constructor
  · intro r h
    unfold calculate_checksum
    rw [h]
  · intro e h
    unfold calculate_checksum
    rw [h]

/-- Witness for C10 at a concrete success and a concrete failure. -/
theorem calculate_checksum_refines_witness :
    calculate_checksum emptyOpen = .ok emptyResult ∧
    calculate_checksum (.error ⟨"No such file or directory (os error 2)"⟩) =
      .error "No such file or directory (os error 2)" :=
  ⟨(calculate_checksum_refines emptyOpen).1 emptyResult (by decide),
   (calculate_checksum_refines (.error ⟨"No such file or directory (os error 2)"⟩)).2
     ⟨"No such file or directory (os error 2)"⟩ rfl⟩
